import Mathlib

/-!
Formal model of the `retribution` text-adventure core, translated from the
Rust sources: the command grammar (`src/ret_lang/command.rs`), the command
dispatcher (`src/ret_lang/parser.rs`), the map model (`src/game/map.rs`),
the game state (`src/game/state.rs`) and the travel interpreter
(`src/game/interpreter.rs`), together with theorems settling the
specification claims about them.

Rust `Result<T, &str>` is modelled as `Except String T`; `Vec<&str>` as
`List String`; `i32` coordinates as `Int`; mutation of `GameState` as
explicit state passing (each interpreter function returns the outcome
paired with the post-state).
-/

namespace Retribution

/-! ## Keyword constants (`src/ret_lang.rs`) -/

def AID : String := "aid"

def ASSIST : String := "assist"

def ATTACK : String := "attack"

def CAST : String := "cast"

def CHARM : String := "charm"

def CONSULT : String := "consult"

def DEFEND : String := "defend"

def DEFY : String := "defy"

def DODGE : String := "dodge"

def DROP : String := "drop"

def ENDURE : String := "endure"

/-- Keyword of the exit command; `ExitCommand::build`'s doc test fixes its
value to `"exit"` (the constant itself lives in the crate root, outside
`src/`). -/
def EXIT : String := "exit"

def FIGHT : String := "fight"

def GO : String := "go"

def HELP : String := "help"

def HIT : String := "hit"

def INTERFERE : String := "interfere"

def IMPROVISE : String := "improvise"

def PARLEY : String := "parley"

def PROTECT : String := "protect"

def SAY : String := "say"

def SEARCH : String := "search"

def SHOOT : String := "shoot"

def STUDY : String := "study"

def TAKE : String := "take"

def VOLLEY : String := "volley"

/-! ## Command grammar (`src/ret_lang/command.rs`)

Each Rust `XCommand` struct becomes a Lean structure and its
`build(sentence) -> Result<XCommand, &str>` a function
`List String → Except String XCommand`.  The Rust bodies guard
`sentence.len() < k` and then index `sentence[0]`, `sentence[1]`, …;
the Lean translations express the same by pattern matching on the first
`k` elements of the list. -/

structure AidCommand where
  name : String
  description : String
  target : String
deriving DecidableEq, Repr

/-- Translation of `AidCommand::build`: fewer than 2 tokens is the arity
error; otherwise `name` is `sentence[0]` and `target` is `sentence[1]`. -/
def AidCommand.build : List String → Except String AidCommand
  | nm :: tgt :: _ =>
      .ok { name := nm, description := "Aid an ally in a fight.", target := tgt }
  | _ => .error "Not enough arguments for aid command."

structure CastCommand where
  name : String
  description : String
  spell_name : String
  target : Option String
deriving DecidableEq, Repr

/-- Translation of `CastCommand::build`: the source rejects
`sentence.len() < 3`, so its `0..=2 => None` arm for `target` is dead code
and `target` is always `Some(sentence[2])`; `name` is the `CAST`
constant. -/
def CastCommand.build : List String → Except String CastCommand
  | _ :: spell :: tgt :: _ =>
      .ok { name := CAST, description := "Cast a spell.",
            spell_name := spell, target := some tgt }
  | _ => .error "Not enough arguments for cast command."

structure DefendCommand where
  name : String
  description : String
  target : String
deriving DecidableEq, Repr

/-- Translation of `DefendCommand::build`.  Note: the source's arity error
string really says `cast`, not `defend` (`src/ret_lang/command.rs:139`). -/
def DefendCommand.build : List String → Except String DefendCommand
  | nm :: tgt :: _ =>
      .ok { name := nm, description := "Defend an ally in a fight.", target := tgt }
  | _ => .error "Not enough arguments for cast command."

structure DefyDangerCommand where
  name : String
  description : String
  target : Option String
  stat : String
deriving DecidableEq, Repr

/-- Translation of `DefyDangerCommand::build`: at least 1 token; `name` is
`sentence[0]`, `target` is `sentence[1]` when present, and `stat` is derived
from `sentence[0]` by the source's `match name` table. -/
def DefyDangerCommand.build : List String → Except String DefyDangerCommand
  | [] => .error "Not enough arguments for defy danger command."
  | nm :: rest =>
      .ok { name := nm, description := "Defy danger using a stat.",
            target := match rest with
              | [] => none
              | t :: _ => some t,
            stat := if nm = CHARM then "charisma"
              else if nm = DEFY then "wisdom"
              else if nm = DODGE then "dexterity"
              else if nm = ENDURE then "constitution"
              else if nm = IMPROVISE then "intelligence"
              else "dexterity" }

structure DiscernRealitiesCommand where
  name : String
  description : String
  target : Option String
deriving DecidableEq, Repr

/-- Translation of `DiscernRealitiesCommand::build`: at least 1 token;
`name` is `sentence[0]`, `target` is `sentence[1]` when present. -/
def DiscernRealitiesCommand.build : List String → Except String DiscernRealitiesCommand
  | [] => .error "Not enough arguments for discern realities command."
  | nm :: rest =>
      .ok { name := nm, description := "Discern realities about a subject.",
            target := match rest with
              | [] => none
              | t :: _ => some t }

structure DropCommand where
  name : String
  description : String
  target : String
deriving DecidableEq, Repr

/-- Translation of `DropCommand::build`: `name` is the `DROP` constant, not
`sentence[0]`. -/
def DropCommand.build : List String → Except String DropCommand
  | _ :: tgt :: _ =>
      .ok { name := DROP, description := "Drops an item from the player's inventory.",
            target := tgt }
  | _ => .error "Not enough arguments for drop command."

structure ExitCommand where
  name : String
  description : String
deriving DecidableEq, Repr

/-- Translation of `ExitCommand::build()`: takes no tokens and never
fails. -/
def ExitCommand.build : Except String ExitCommand :=
  .ok { name := EXIT, description := "Exits the game." }

structure GoCommand where
  name : String
  description : String
  target : String
deriving DecidableEq, Repr

/-- Translation of `GoCommand::build`: `name` is the `GO` constant. -/
def GoCommand.build : List String → Except String GoCommand
  | _ :: tgt :: _ =>
      .ok { name := GO, description := "Moves the player to a new location.",
            target := tgt }
  | _ => .error "Not enough arguments for go command."

structure HackAndSlashCommand where
  name : String
  description : String
  target : List String
deriving DecidableEq, Repr

/-- Translation of `HackAndSlashCommand::build`: `name` is `sentence[0]`,
`target` is all of `sentence[1..]`. -/
def HackAndSlashCommand.build : List String → Except String HackAndSlashCommand
  | nm :: t :: rest =>
      .ok { name := nm, description := "Attack an enemy with a melee weapon.",
            target := t :: rest }
  | _ => .error "Not enough arguments for hack and slash command."

structure HelpCommand where
  name : String
  description : String
  target : Option String
deriving DecidableEq, Repr

/-- Translation of `HelpCommand::build`: `name` is the `HELP` constant,
`target` is `sentence[1]` when present. -/
def HelpCommand.build : List String → Except String HelpCommand
  | [] => .error "Not enough arguments for help command."
  | _ :: rest =>
      .ok { name := HELP,
            description := "Prints a list of commands or the description of a command.",
            target := match rest with
              | [] => none
              | t :: _ => some t }

structure InterfereCommand where
  name : String
  description : String
  target : String
deriving DecidableEq, Repr

/-- Translation of `InterfereCommand::build`: `name` is the `INTERFERE`
constant. -/
def InterfereCommand.build : List String → Except String InterfereCommand
  | _ :: tgt :: _ =>
      .ok { name := INTERFERE, description := "Interfere with an enemy's attack.",
            target := tgt }
  | _ => .error "Not enough arguments for interfere command."

structure ParleyCommand where
  name : String
  description : String
  target : String
deriving DecidableEq, Repr

/-- Translation of `ParleyCommand::build`: `name` is the `PARLEY`
constant. -/
def ParleyCommand.build : List String → Except String ParleyCommand
  | _ :: tgt :: _ =>
      .ok { name := PARLEY, description := "Parley with an enemy.", target := tgt }
  | _ => .error "Not enough arguments for parley command."

structure SayCommand where
  name : String
  description : String
  target : String
deriving DecidableEq, Repr

/-- Translation of `SayCommand::build`: `name` is the `SAY` constant,
`target` joins `sentence[1..]` with single spaces. -/
def SayCommand.build : List String → Except String SayCommand
  | _ :: t :: rest =>
      .ok { name := SAY, description := "Prints a message to the screen.",
            target := String.intercalate " " (t :: rest) }
  | _ => .error "Not enough arguments for say command."

structure SpoutLoreCommand where
  name : String
  description : String
  target : Option String
deriving DecidableEq, Repr

/-- Translation of `SpoutLoreCommand::build`: at least 1 token; `name` is
`sentence[0]`, `target` is `sentence[1]` when present. -/
def SpoutLoreCommand.build : List String → Except String SpoutLoreCommand
  | [] => .error "Not enough arguments for spout lore command."
  | nm :: rest =>
      .ok { name := nm, description := "Spout lore about a subject.",
            target := match rest with
              | [] => none
              | t :: _ => some t }

structure TakeCommand where
  name : String
  description : String
  target : String
deriving DecidableEq, Repr

/-- Translation of `TakeCommand::build`: `name` is the `TAKE` constant. -/
def TakeCommand.build : List String → Except String TakeCommand
  | _ :: tgt :: _ =>
      .ok { name := TAKE, description := "Takes an item from the current location.",
            target := tgt }
  | _ => .error "Not enough arguments for take command."

structure VolleyCommand where
  name : String
  description : String
  target : String
deriving DecidableEq, Repr

/-- Translation of `VolleyCommand::build`: `name` is `sentence[0]`. -/
def VolleyCommand.build : List String → Except String VolleyCommand
  | nm :: tgt :: _ =>
      .ok { name := nm, description := "Attack an enemy with a ranged weapon.",
            target := tgt }
  | _ => .error "Not enough arguments for volley command."

/-- Translation of the `Command` enum (`src/ret_lang/command.rs`). -/
inductive Command where
  | aid : AidCommand → Command
  | cast : CastCommand → Command
  | defend : DefendCommand → Command
  | defyDanger : DefyDangerCommand → Command
  | discernRealities : DiscernRealitiesCommand → Command
  | drop : DropCommand → Command
  | exit : ExitCommand → Command
  | go : GoCommand → Command
  | hackAndSlash : HackAndSlashCommand → Command
  | help : HelpCommand → Command
  | interfere : InterfereCommand → Command
  | parley : ParleyCommand → Command
  | say : SayCommand → Command
  | spoutLore : SpoutLoreCommand → Command
  | take : TakeCommand → Command
  | volley : VolleyCommand → Command
deriving DecidableEq, Repr

/-! ## Command dispatcher (`src/ret_lang/parser.rs`) -/

/-- Translation of `tokenize`: Rust `split_whitespace` splits on whitespace
runs and yields only the non-empty tokens.  Modelled over the string's
character list (splitting at every whitespace character and dropping the
empty pieces, which is exactly the whitespace-run behaviour). -/
def tokenize (line : String) : List String :=
  ((List.splitOnP Char.isWhitespace line.data).map fun cs => String.mk cs).filter
    (fun t => t ≠ "")

/-- Translation of `parse_input` (`src/ret_lang/parser.rs:26`): matches
`tokens[0]` against the synonym table and delegates to that variant's
`build`, propagating its error (`?`) unchanged.  The source indexes
`tokens[0]` directly, panicking on empty input (a stated precondition of
the dispatcher); here the head defaults to `""`, which reaches the
no-match arm.  No arm of the source's `match` produces `Command::Exit`. -/
def parse_input (line : String) : Except String Command :=
  let tokens := tokenize line
  let command := tokens.headD ""
  if command = AID ∨ command = ASSIST then
    (AidCommand.build tokens).map Command.aid
  else if command = ATTACK ∨ command = FIGHT ∨ command = HIT then
    (HackAndSlashCommand.build tokens).map Command.hackAndSlash
  else if command = CAST then
    (CastCommand.build tokens).map Command.cast
  else if command = CONSULT then
    (SpoutLoreCommand.build tokens).map Command.spoutLore
  else if command = CHARM ∨ command = DEFY ∨ command = DODGE ∨
      command = ENDURE ∨ command = IMPROVISE then
    (DefyDangerCommand.build tokens).map Command.defyDanger
  else if command = DEFEND ∨ command = PROTECT then
    (DefendCommand.build tokens).map Command.defend
  else if command = DROP then
    (DropCommand.build tokens).map Command.drop
  else if command = GO then
    (GoCommand.build tokens).map Command.go
  else if command = HELP then
    (HelpCommand.build tokens).map Command.help
  else if command = INTERFERE then
    (InterfereCommand.build tokens).map Command.interfere
  else if command = PARLEY then
    (ParleyCommand.build tokens).map Command.parley
  else if command = SAY then
    (SayCommand.build tokens).map Command.say
  else if command = SEARCH ∨ command = STUDY then
    (DiscernRealitiesCommand.build tokens).map Command.discernRealities
  else if command = SHOOT ∨ command = VOLLEY then
    (VolleyCommand.build tokens).map Command.volley
  else if command = TAKE then
    (TakeCommand.build tokens).map Command.take
  else
    .error "Command not found."

/-! ## Map model (`src/game/map.rs`) -/

/-- Translation of the `Room` struct. -/
structure Room where
  name : String
  description : String
deriving DecidableEq, Repr

/-- Translation of the `Portal` struct; `location` is the (row, col)
destination on the target map. -/
structure Portal where
  name : String
  target : String
  location : Int × Int
deriving DecidableEq, Repr

/-- Translation of the `GridSquare` enum. -/
inductive GridSquare where
  | room : Room → GridSquare
  | portal : Portal → GridSquare
deriving DecidableEq, Repr

/-- Translation of the `Map` struct: a named grid of optional squares. -/
structure Map where
  name : String
  grid : List (List (Option GridSquare))
deriving DecidableEq, Repr

/-- Translation of `Map::new`: a dense `rows × cols` grid of empty cells
(the `0..rows` loop is empty for non-positive counts, hence `toNat`). -/
def Map.new (name : String) (rows cols : Int) : Map :=
  { name := name,
    grid := List.replicate rows.toNat (List.replicate cols.toNat none) }

/-- Translation of `Map::get_grid_square`: `None` for a negative index,
for a row index at or past the row count, or for a column index at or past
the length of the first row (the source compares `col` against
`self.grid[0].len()`; the `grid.len() <= row` disjunct short-circuits when
the grid is empty, so `headD []` is the faithful reading of `grid[0]`).
The final `self.grid[row][col]` access is modelled with `getD`; on a map
whose rows have unequal lengths the source could reach that access out of
bounds, which this model reads as an absent cell. -/
def Map.get_grid_square (m : Map) (row col : Int) : Option GridSquare :=
  if col < 0 ∨ row < 0 then
    none
  else
    let colN := col.toNat
    let rowN := row.toNat
    if m.grid.length ≤ rowN ∨ (m.grid.headD []).length ≤ colN then
      none
    else
      (m.grid.getD rowN []).getD colN none

/-- Outcome of `Map::set_grid_square`, which can return `Ok`, return the
index error, or panic on an out-of-range vector index. -/
inductive SetResult where
  | ok : Map → SetResult
  | err : String → SetResult
  | panicked : SetResult
deriving DecidableEq, Repr

/-- Translation of `Map::set_grid_square` (`src/game/map.rs:113`).  The
source guards `self.grid.len() < row || self.grid[row].len() < col` and
then writes `self.grid[row][col]`.  With strict `<` in the guard,
`row == grid.len()` passes the first disjunct and panics evaluating
`self.grid[row]`, and `col == grid[row].len()` passes the guard and panics
on the write; both are modelled as `SetResult.panicked`. -/
def Map.set_grid_square (m : Map) (row col : Nat) (gs : GridSquare) : SetResult :=
  if m.grid.length < row then
    .err "Index out of bounds."
  else if hrow : row < m.grid.length then
    let rowList := m.grid.get ⟨row, hrow⟩
    if rowList.length < col then
      .err "Index out of bounds."
    else if col < rowList.length then
      .ok { m with grid := m.grid.set row (rowList.set col (some gs)) }
    else
      .panicked
  else
    .panicked

/-! ## Game state (`src/game/state.rs`) -/

/-- Translation of the `Mode` enum. -/
inductive Mode where
  | combat
  | menu
  | travel
deriving DecidableEq, Repr

/-- Translation of the `GameState` struct. -/
structure GameState where
  mode : Mode
  map : Option Map
  room : Option (Int × Int)
deriving DecidableEq, Repr

/-- Translation of `GameState::new`. -/
def GameState.new : GameState :=
  { mode := .travel, map := none, room := none }

/-! ## Travel interpreter (`src/game/interpreter.rs`)

The interpreter mutates `GameState` in place; here it returns the outcome
paired with the post-state.  The call to `map::load_map` reads the SQLite
database (the external map-loader collaborator of the spec), so the
interpreter is parameterised over a `loader : String → Except String Map`
standing for `load_map(name, None)`. -/

/-- Outcome of one interpreter call: the narrative string, the error
string, or process termination (the `Exit` arm calls
`std::process::exit(0)`). -/
inductive TravelOutcome where
  | ok : String → TravelOutcome
  | err : String → TravelOutcome
  | exited : Nat → TravelOutcome
deriving DecidableEq, Repr

/-- Error string used on every travel failure path. -/
def notAble : String := "Not able to do that action right now."

/-- Model of Rust's `String::to_lowercase` as used on the `Go` target:
character-wise `Char.toLower` (ASCII letters; the direction words the
interpreter compares against are ASCII). -/
def to_lowercase (s : String) : String := String.mk (s.data.map Char.toLower)

/-- Translation of the `handle_room_change` closure inside
`travel_interpreter` (`src/game/interpreter.rs:24`).  The source matches
`state.map` twice on the same value (once to clone `original_map`, once to
look up the square); both are the single `some original_map` match here.
On the square being present the source first sets `state.room` to the new
coordinates (`state1`); a `Room` there is immediate success.  For a
`Portal` it loads the target map: on load failure it restores both
`state.map` and `state.room`; on success it installs the loaded map and
the portal's destination (`state2`), re-reads `state.map` (the `None` arm
of that re-read is dead but translated), and requires a `Room` at the
destination — an absent destination square restores the original map and
coordinates, while a `Portal` destination fails with the state left on the
new map. -/
def handle_room_change (loader : String → Except String Map) (c : GoCommand)
    (state : GameState) (new_coords : Int × Int) : TravelOutcome × GameState :=
  let original_coords := state.room
  match state.map with
  | none => (.err notAble, state)
  | some original_map =>
    match original_map.get_grid_square new_coords.1 new_coords.2 with
    | none => (.err notAble, state)
    | some new_grid_square =>
      let state1 : GameState := { state with room := some new_coords }
      match new_grid_square with
      | .room r =>
          (.ok ("Hero went " ++ c.target ++ ". " ++ r.description), state1)
      | .portal p =>
        let new_coords2 := p.location
        match loader p.target with
        | .error _ =>
            (.err notAble, { state1 with map := some original_map, room := original_coords })
        | .ok new_map =>
          let state2 : GameState := { state1 with map := some new_map, room := some new_coords2 }
          match state2.map with
          | none =>
              (.err notAble, { state2 with map := some original_map, room := original_coords })
          | some m2 =>
            match m2.get_grid_square new_coords2.1 new_coords2.2 with
            | none =>
                (.err notAble, { state2 with map := some original_map, room := original_coords })
            | some gs2 =>
              match gs2 with
              | .room r2 =>
                  (.ok ("Hero went " ++ c.target ++ ". " ++ r2.description), state2)
              | .portal _ => (.err notAble, state2)

/-- Translation of `travel_interpreter` (`src/game/interpreter.rs:15`):
a `Go` command requires a current position, lowercases the target and
dispatches the four direction words to `handle_room_change` with the
corresponding coordinate delta; `Exit` terminates the process with status
0; everything else is the flat travel error. -/
def travel_interpreter (loader : String → Except String Map)
    (command : Command) (state : GameState) : TravelOutcome × GameState :=
  match command with
  | .go c =>
    match state.room with
    | none => (.err notAble, state)
    | some (row, col) =>
      match to_lowercase c.target with
      | "north" => handle_room_change loader c state (row - 1, col)
      | "south" => handle_room_change loader c state (row + 1, col)
      | "east" => handle_room_change loader c state (row, col + 1)
      | "west" => handle_room_change loader c state (row, col - 1)
      | _ => (.err notAble, state)
  | .exit _ => (.exited 0, state)
  | _ => (.err notAble, state)

/-- Translation of the public `interpreter` wrapper: only `Travel` mode
dispatches to `travel_interpreter`. -/
def interpreter (loader : String → Except String Map)
    (command : Command) (state : GameState) : TravelOutcome × GameState :=
  match state.mode with
  | .travel => travel_interpreter loader command state
  | _ => (.err notAble, state)

/-- Destination coordinates the `Go` dispatch computes for a direction
word (the four `to_lowercase` arms of `travel_interpreter`); `none` for
any other word.  Used to state the travel claims for an arbitrary valid
direction. -/
def goDest (target : String) (row col : Int) : Option (Int × Int) :=
  match to_lowercase target with
  | "north" => some (row - 1, col)
  | "south" => some (row + 1, col)
  | "east" => some (row, col + 1)
  | "west" => some (row, col - 1)
  | _ => none

/-- Holds exactly when an optional grid square is a `Room`. -/
def isRoomSquare : Option GridSquare → Bool
  | some (.room _) => true
  | _ => false

/-! ## Concrete fixtures for witnesses and counterexamples -/

/-- Grid square holding the room at (1,1) of the test map. -/
def room1 : GridSquare := .room { name := "Room 1", description := "This is room 1." }

/-- Grid square holding the room at (0,1) of the test map. -/
def room2 : GridSquare := .room { name := "Room 2", description := "This is room 2." }

/-- Portal at (2,1) of the test map, one way to "Test Area 2" at (1,0). -/
def portalA : Portal := { name := "Portal", target := "Test Area 2", location := (1, 0) }

/-- A 3×3 map: a room at (1,1), a room at (0,1), a portal at (2,1). -/
def testMap : Map :=
  { name := "Test Area",
    grid := [[none, some room2, none],
             [none, some room1, none],
             [none, some (GridSquare.portal portalA), none]] }

/-- Travel-mode state positioned at (1,1) of `testMap`. -/
def testState : GameState :=
  { mode := .travel, map := some testMap, room := some (1, 1) }

/-- Loaded map whose square at the portal destination (1,0) is itself a
portal. -/
def loopMap : Map :=
  { name := "Test Area 2",
    grid := [[none, none],
             [some (GridSquare.portal portalA), none]] }

/-- Loaded map whose square at the portal destination (1,0) is empty. -/
def holeMap : Map :=
  { name := "Test Area 2",
    grid := [[none, none],
             [none, none]] }

/-- Loader that always fails, as `load_map` does when no row matches. -/
def failLoader : String → Except String Map := fun _ => .error "No map found."

/-- Loader that returns `loopMap` for every name. -/
def loopLoader : String → Except String Map := fun _ => .ok loopMap

/-- Loader that returns `holeMap` for every name. -/
def holeLoader : String → Except String Map := fun _ => .ok holeMap

/-- Go command with target "north". -/
def goNorth : GoCommand :=
  { name := GO, description := "Moves the player to a new location.", target := "north" }

/-- Go command with target "south". -/
def goSouth : GoCommand :=
  { name := GO, description := "Moves the player to a new location.", target := "south" }

/-- Go command with target "west". -/
def goWest : GoCommand :=
  { name := GO, description := "Moves the player to a new location.", target := "west" }

/-! ## Shared lemmas -/

/-- Dispatch lemma: when the current position is set and the target is a
valid direction word, `travel_interpreter` on a `Go` command is
`handle_room_change` at the direction's destination coordinates. -/
theorem travel_go_eq (loader : String → Except String Map) (c : GoCommand)
    (st : GameState) (r col : Int) (nc : Int × Int)
    (hroom : st.room = some (r, col)) (hdest : goDest c.target r col = some nc) :
    travel_interpreter loader (.go c) st = handle_room_change loader c st nc := by
  unfold goDest at hdest
  unfold travel_interpreter
  rw [hroom]
  split at hdest <;> rename_i heq
  all_goals simp only [heq] at hdest ⊢
  all_goals cases hdest
  all_goals rfl

/-! ## Claim theorems: command layer -/

/-- C3.  The claim says `parse_input` maps a first token of `"exit"` to the
`Exit` command.  The dispatcher's `match` has no arm for the exit keyword,
so `parse_input "exit"` falls through to `ParseError("Command not
found.")`, even though `ExitCommand::build` exists and produces the `Exit`
command the interpreter handles: the code contradicts the parser's own
grammar (and the spec's synonym table). -/
theorem parse_input_exit_not_found :
    parse_input "exit" = .error "Command not found." ∧
    ExitCommand.build = .ok { name := EXIT, description := "Exits the game." } :=
  ⟨rfl, rfl⟩

/-- C4.  The claim says `set_grid_square` is a bounds-checked write that
returns the index error everywhere outside bounds, including `row` equal
to the row count or `col` equal to the row length.  The source's guard
uses strict `<`, so on a 3×3 map the writes at `row = 3` and `col = 3`
panic instead of returning the error; only indices strictly beyond the
length are caught, and in-bounds writes store the square. -/
theorem set_grid_square_boundary_panics :
    (Map.new "Test Area" 3 3).set_grid_square 3 0 room1 = .panicked ∧
    (Map.new "Test Area" 3 3).set_grid_square 0 3 room1 = .panicked ∧
    (Map.new "Test Area" 3 3).set_grid_square 4 0 room1 = .err "Index out of bounds." ∧
    (Map.new "Test Area" 3 3).set_grid_square 1 1 room1 =
      .ok { name := "Test Area",
            grid := [[none, none, none],
                     [none, some room1, none],
                     [none, none, none]] } := by
  decide

/-- C6.  The claim says every variant's `build` arity error names that
variant's own command.  `DefendCommand::build`'s error string says
`cast`, not `defend` (`src/ret_lang/command.rs:139`), so the claim fails
on the defend variant exactly at its cited example. -/
theorem defend_build_arity_error_says_cast :
    DefendCommand.build [DEFEND] = .error "Not enough arguments for cast command." ∧
    "Not enough arguments for cast command." ≠
      "Not enough arguments for defend command." :=
  ⟨rfl, by decide⟩

/-- C7 counterexample.  The claim says every variant's `build` puts
`tokens[0]` in the `name` field; `DropCommand::build` stores the `DROP`
constant instead, so any first token other than `"drop"` refutes it. -/
theorem drop_build_name_not_first_token :
    Except.map DropCommand.name (DropCommand.build ["discard", "sword"]) = .ok "drop" ∧
    ("drop" : String) ≠ "discard" :=
  ⟨rfl, by decide⟩

/-- C7 as amended.  On every accepted token list, the `name` field equals
`tokens[0]` for the variants that copy it (Aid, Defend, DefyDanger,
DiscernRealities, HackAndSlash, SpoutLore, Volley); the remaining variants
(Cast, Drop, Go, Help, Interfere, Parley, Say, Take, Exit) store their
fixed keyword constant, which equals `tokens[0]` only when the typed
token is that keyword. -/
theorem build_name_fields :
    (∀ nm t rest, Except.map AidCommand.name (AidCommand.build (nm :: t :: rest)) = .ok nm) ∧
    (∀ nm t rest, Except.map DefendCommand.name (DefendCommand.build (nm :: t :: rest)) = .ok nm) ∧
    (∀ nm rest, Except.map DefyDangerCommand.name (DefyDangerCommand.build (nm :: rest)) = .ok nm) ∧
    (∀ nm rest, Except.map DiscernRealitiesCommand.name (DiscernRealitiesCommand.build (nm :: rest)) = .ok nm) ∧
    (∀ nm t rest, Except.map HackAndSlashCommand.name (HackAndSlashCommand.build (nm :: t :: rest)) = .ok nm) ∧
    (∀ nm rest, Except.map SpoutLoreCommand.name (SpoutLoreCommand.build (nm :: rest)) = .ok nm) ∧
    (∀ nm t rest, Except.map VolleyCommand.name (VolleyCommand.build (nm :: t :: rest)) = .ok nm) ∧
    (∀ nm sp t rest, Except.map CastCommand.name (CastCommand.build (nm :: sp :: t :: rest)) = .ok CAST) ∧
    (∀ nm t rest, Except.map DropCommand.name (DropCommand.build (nm :: t :: rest)) = .ok DROP) ∧
    (∀ nm t rest, Except.map GoCommand.name (GoCommand.build (nm :: t :: rest)) = .ok GO) ∧
    (∀ nm rest, Except.map HelpCommand.name (HelpCommand.build (nm :: rest)) = .ok HELP) ∧
    (∀ nm t rest, Except.map InterfereCommand.name (InterfereCommand.build (nm :: t :: rest)) = .ok INTERFERE) ∧
    (∀ nm t rest, Except.map ParleyCommand.name (ParleyCommand.build (nm :: t :: rest)) = .ok PARLEY) ∧
    (∀ nm t rest, Except.map SayCommand.name (SayCommand.build (nm :: t :: rest)) = .ok SAY) ∧
    (∀ nm t rest, Except.map TakeCommand.name (TakeCommand.build (nm :: t :: rest)) = .ok TAKE) ∧
    Except.map ExitCommand.name ExitCommand.build = .ok EXIT :=
  ⟨fun _ _ _ => rfl, fun _ _ _ => rfl, fun _ _ => rfl, fun _ _ => rfl,
   fun _ _ _ => rfl, fun _ _ => rfl, fun _ _ _ => rfl, fun _ _ _ _ => rfl,
   fun _ _ _ => rfl, fun _ _ _ => rfl, fun _ _ => rfl, fun _ _ _ => rfl,
   fun _ _ _ => rfl, fun _ _ _ => rfl, fun _ _ _ => rfl, rfl⟩

/-- C8 counterexample.  The claim says `CastCommand::build` succeeds on
the two-token input `["cast", spell]` with an absent target; the source
rejects fewer than three tokens, so the two-token input is an arity
error. -/
theorem cast_build_two_tokens_fails :
    CastCommand.build [CAST, "fireball"] = .error "Not enough arguments for cast command." :=
  rfl

/-- C8 as amended.  `Cast` requires three tokens: `["cast", spell]` fails
with the arity error, and `["cast", spell, t, ...]` succeeds with
`spell_name = spell` and `target = some t` (the target is effectively
required, the `None` arm being dead code). -/
theorem cast_build_requires_three_tokens :
    (∀ spell, CastCommand.build [CAST, spell] =
      .error "Not enough arguments for cast command.") ∧
    (∀ spell t rest, CastCommand.build (CAST :: spell :: t :: rest) =
      .ok { name := CAST, description := "Cast a spell.",
            spell_name := spell, target := some t }) :=
  ⟨fun _ => rfl, fun _ _ _ => rfl⟩

/-- C9.  The DefyDanger stat mapping is total and exact over first
tokens: `dodge → dexterity`, `charm → charisma`, `endure → constitution`,
`improvise → intelligence`, `defy → wisdom`, and anything else defaults to
`dexterity`; the stat depends only on `tokens[0]`. -/
theorem defy_danger_stat_mapping (nm : String) (rest : List String) :
    Except.map DefyDangerCommand.stat (DefyDangerCommand.build (nm :: rest)) =
      .ok (if nm = DODGE then "dexterity"
        else if nm = CHARM then "charisma"
        else if nm = ENDURE then "constitution"
        else if nm = IMPROVISE then "intelligence"
        else if nm = DEFY then "wisdom"
        else "dexterity") := by
  have h : Except.map DefyDangerCommand.stat (DefyDangerCommand.build (nm :: rest)) =
      .ok (if nm = CHARM then "charisma"
        else if nm = DEFY then "wisdom"
        else if nm = DODGE then "dexterity"
        else if nm = ENDURE then "constitution"
        else if nm = IMPROVISE then "intelligence"
        else "dexterity") := rfl
  rw [h]
  simp only [CHARM, DEFY, DODGE, ENDURE, IMPROVISE, Except.ok.injEq]
  split_ifs <;> simp_all

/-! ## Claim theorems: travel interpreter -/

/-- C2.  Movement into an absent or out-of-bounds grid square never
mutates the game state: with a current map and position and a valid
direction whose destination square is absent (`get_grid_square` returns
`none` both for empty cells and for out-of-bounds coordinates), the `Go`
transition returns the flat `NotAbleError` and the post-state equals the
pre-state in every field. -/
theorem travel_no_mutation_absent_square
    (loader : String → Except String Map) (c : GoCommand) (st : GameState)
    (m : Map) (r col : Int) (nc : Int × Int)
    (hmap : st.map = some m) (hroom : st.room = some (r, col))
    (hdest : goDest c.target r col = some nc)
    (hsq : m.get_grid_square nc.1 nc.2 = none) :
    travel_interpreter loader (.go c) st = (.err notAble, st) := by
  rw [travel_go_eq loader c st r col nc hroom hdest]
  simp only [handle_room_change, hmap, hsq]

/-- Witness for C2: from (1,1) of the test map, `go west` targets the
empty cell (1,0) and leaves the state untouched. -/
theorem travel_no_mutation_absent_square_witness :
    travel_interpreter failLoader (.go goWest) testState = (.err notAble, testState) :=
  travel_no_mutation_absent_square failLoader goWest testState testMap 1 1 (1, 0)
    rfl rfl rfl rfl

/-- C1.  When the destination square is a portal and loading the portal's
target map fails, the move is fully rolled back: the interpreter returns
the flat `NotAbleError` and the post-state's `map` and `room` equal their
values before the call. -/
theorem travel_rollback_on_load_failure
    (loader : String → Except String Map) (c : GoCommand) (st : GameState)
    (m : Map) (r col : Int) (nc : Int × Int) (p : Portal) (e : String)
    (hmap : st.map = some m) (hroom : st.room = some (r, col))
    (hdest : goDest c.target r col = some nc)
    (hsq : m.get_grid_square nc.1 nc.2 = some (.portal p))
    (hload : loader p.target = .error e) :
    (travel_interpreter loader (.go c) st).1 = .err notAble ∧
    (travel_interpreter loader (.go c) st).2.map = st.map ∧
    (travel_interpreter loader (.go c) st).2.room = st.room := by
  rw [travel_go_eq loader c st r col nc hroom hdest]
  simp only [handle_room_change, hmap, hsq, hload]
  exact ⟨trivial, trivial, trivial⟩

/-- Witness for C1: from (1,1) of the test map, `go south` reaches the
portal at (2,1); with the always-failing loader the state's map and room
are unchanged. -/
theorem travel_rollback_on_load_failure_witness :
    (travel_interpreter failLoader (.go goSouth) testState).1 = .err notAble ∧
    (travel_interpreter failLoader (.go goSouth) testState).2.map = testState.map ∧
    (travel_interpreter failLoader (.go goSouth) testState).2.room = testState.room :=
  travel_rollback_on_load_failure failLoader goSouth testState testMap 1 1 (2, 1)
    portalA "No map found." rfl rfl rfl rfl rfl

/-- C5 counterexample.  The claim says that whenever the portal's target
map loads but the destination square is not a `Room` — absent, out of
bounds, or a `Portal` — the state stays on the newly loaded map at the
destination coordinates.  With a loaded map whose destination cell is
empty, the source instead restores the original map and coordinates
(`src/game/interpreter.rs:64`), so the post-state equals the pre-state
and its map is not the loaded one. -/
theorem travel_portal_absent_destination_rolls_back :
    travel_interpreter holeLoader (.go goSouth) testState = (.err notAble, testState) ∧
    testState.map ≠ some holeMap :=
  ⟨by decide, by decide⟩

/-- C5 as amended.  After a successful portal load whose destination
square is not a `Room`, the move fails with `NotAbleError`; if the
destination square is absent or out of bounds the original map and
coordinates are restored, and only if it is itself a `Portal` does the
state remain on the newly loaded map at the destination coordinates. -/
theorem travel_portal_bad_destination
    (loader : String → Except String Map) (c : GoCommand) (st : GameState)
    (m nm2 : Map) (r col : Int) (nc : Int × Int) (p : Portal)
    (hmap : st.map = some m) (hroom : st.room = some (r, col))
    (hdest : goDest c.target r col = some nc)
    (hsq : m.get_grid_square nc.1 nc.2 = some (.portal p))
    (hload : loader p.target = .ok nm2)
    (hnr : isRoomSquare (nm2.get_grid_square p.location.1 p.location.2) = false) :
    travel_interpreter loader (.go c) st =
      (.err notAble,
        match nm2.get_grid_square p.location.1 p.location.2 with
        | none => { st with map := some m, room := st.room }
        | _ => { st with map := some nm2, room := some p.location }) := by
  rw [travel_go_eq loader c st r col nc hroom hdest]
  simp only [handle_room_change, hmap, hsq, hload]
  rcases hh : nm2.get_grid_square p.location.1 p.location.2 with _ | gs2
  · simp [hh]
  · cases gs2 with
    | room r2 => rw [hh] at hnr; simp [isRoomSquare] at hnr
    | portal p2 => simp [hh]

/-- Witness for C5: `go south` onto the portal with a loader serving a
map whose destination cell (1,0) holds another portal leaves the state on
the loaded map at (1,0). -/
theorem travel_portal_bad_destination_witness :
    travel_interpreter loopLoader (.go goSouth) testState =
      (.err notAble, { testState with map := some loopMap, room := some (1, 0) }) :=
  travel_portal_bad_destination loopLoader goSouth testState testMap loopMap 1 1 (2, 1)
    portalA rfl rfl rfl rfl rfl rfl

/-- Helper for C10: whenever `handle_room_change` succeeds, the post-state
has a map and position, the square there is a `Room`, and the output is
the narrative string built from that room's description. -/
theorem handle_room_change_ok (loader : String → Except String Map) (c : GoCommand)
    (state : GameState) (nc : Int × Int) (out : String) (st' : GameState)
    (h : handle_room_change loader c state nc = (.ok out, st')) :
    ∃ m rc rm, st'.map = some m ∧ st'.room = some rc ∧
      m.get_grid_square rc.1 rc.2 = some (.room rm) ∧
      out = "Hero went " ++ c.target ++ ". " ++ rm.description := by
  rcases hm : state.map with _ | m
  · simp only [handle_room_change, hm] at h
    simp at h
  · simp only [handle_room_change, hm] at h
    rcases hsq : m.get_grid_square nc.1 nc.2 with _ | gs
    · simp only [hsq] at h
      simp at h
    · simp only [hsq] at h
      cases gs with
      | room r =>
        simp only [Prod.mk.injEq, TravelOutcome.ok.injEq] at h
        obtain ⟨hout, hst⟩ := h
        refine ⟨m, nc, r, ?_, ?_, hsq, hout.symm⟩
        · rw [← hst]
        · rw [← hst]
      | portal p =>
        rcases hl : loader p.target with e | nm2
        · simp only [hl] at h
          simp at h
        · simp only [hl] at h
          rcases hsq2 : nm2.get_grid_square p.location.1 p.location.2 with _ | gs2
          · simp only [hsq2] at h
            simp at h
          · simp only [hsq2] at h
            cases gs2 with
            | room r2 =>
              simp only [Prod.mk.injEq, TravelOutcome.ok.injEq] at h
              obtain ⟨hout, hst⟩ := h
              refine ⟨nm2, p.location, r2, ?_, ?_, hsq2, hout.symm⟩
              · rw [← hst]
              · rw [← hst]
            | portal _ =>
              simp at h

/-- C10.  Whenever the travel interpreter returns `Ok` for a `Go`
command, the post-state has a current map and position, the grid square
at that position on that map is a `Room`, and the returned narrative is
exactly `"Hero went {target}. {description}"`, so the room's description
appears in the output; a successful move never parks the player on a
portal, an empty cell, or outside the grid. -/
theorem travel_ok_lands_on_room (loader : String → Except String Map)
    (c : GoCommand) (st st' : GameState) (out : String)
    (h : travel_interpreter loader (.go c) st = (.ok out, st')) :
    ∃ m rc rm, st'.map = some m ∧ st'.room = some rc ∧
      m.get_grid_square rc.1 rc.2 = some (.room rm) ∧
      out = "Hero went " ++ c.target ++ ". " ++ rm.description := by
  rcases hr : st.room with _ | rc0
  · simp only [travel_interpreter, hr] at h
    simp at h
  · rcases rc0 with ⟨r, col⟩
    simp only [travel_interpreter, hr] at h
    split at h
    any_goals exact handle_room_change_ok loader c st _ out st' h
    simp at h

/-- Witness for C10: the successful same-map move `go north` from (1,1)
of the test map lands on the room at (0,1) and reports its
description. -/
theorem travel_ok_lands_on_room_witness :
    ∃ m rc rm,
      (GameState.mk Mode.travel (some testMap) (some ((0 : Int), (1 : Int)))).map = some m ∧
      (GameState.mk Mode.travel (some testMap) (some ((0 : Int), (1 : Int)))).room = some rc ∧
      m.get_grid_square rc.1 rc.2 = some (.room rm) ∧
      "Hero went north. This is room 2." = "Hero went " ++ goNorth.target ++ ". " ++ rm.description :=
  travel_ok_lands_on_room failLoader goNorth testState
    (GameState.mk Mode.travel (some testMap) (some (0, 1)))
    "Hero went north. This is room 2." (by decide)

end Retribution
